import Mathlib

/-!
Verification development for the `google_trans2` client
(`src/google_trans2/translate.py`, `src/google_trans2/exceptions.py`).

The Python code is shallowly embedded: JSON/Python values are modelled by
`JVal`, Python exceptions by `PyErr`, and every fallible Python operation
(list indexing, `len`, attribute access, `json.loads`, dict lookup) returns
`Except PyErr _`.  The HTTP transport is modelled by passing the response
(`Resp`) to the functions explicitly; the random RPC-id choice is modelled
by passing the chosen id explicitly.

The constants module (`constants.py`) and the user-agent list are not under
`src/`; the pieces of them that the claims need (`GOOGLE_TTS_RPC`,
`LANGUAGES`, `URLS_SUFFIX`) are modelled from the spec and marked as such.
-/

set_option maxRecDepth 100000

namespace GoogleTrans2

/-- JSON / Python values as they appear in the decoded response lines.
Numbers are modelled as integers (the response lines exercised by the
claims contain no fractional numbers); JSON objects do not occur in the
response shapes the client inspects. -/
inductive JVal where
  | null
  | boolean (b : Bool)
  | int (n : Int)
  | str (s : String)
  | arr (xs : List JVal)

/-- The Python exceptions the embedded code can raise. -/
inductive PyErr where
  | indexError
  | typeError
  | keyError (k : String)
  | attributeError (name : String)
  | jsonError
  | googleTranslateError (msg : Option String)
deriving Repr, DecidableEq

/-- Python `list(x)`: a list stays itself, a string becomes its characters,
anything else raises `TypeError`. -/
def pyListV : JVal → Except PyErr (List JVal)
  | .arr xs => .ok xs
  | .str s => .ok (s.data.map (fun c => .str (String.singleton c)))
  | _ => .error .typeError

/-- Python indexing `xs[i]` on a Python list. -/
def listIndex (xs : List JVal) (i : Nat) : Except PyErr JVal :=
  match xs.get? i with
  | some v => .ok v
  | none => .error .indexError

/-- Python indexing `v[i]` with a non-negative index. -/
def JVal.index (v : JVal) (i : Nat) : Except PyErr JVal :=
  match v with
  | .arr xs => listIndex xs i
  | .str s =>
    match s.data.get? i with
    | some c => .ok (.str (String.singleton c))
    | none => .error .indexError
  | _ => .error .typeError

/-- Python `len(v)`. -/
def pyLenV : JVal → Except PyErr Nat
  | .arr xs => .ok xs.length
  | .str s => .ok s.length
  | _ => .error .typeError

/-- Python's default `str.strip` whitespace set. -/
def isPySpace (c : Char) : Bool :=
  c = ' ' || c = '\t' || c = '\n' || c = '\r' || c = '\x0b' || c = '\x0c'

/-- Python `s.strip()` on a string: drop leading and trailing whitespace. -/
def pyStrip (s : String) : String :=
  String.mk (((s.data.dropWhile isPySpace).reverse.dropWhile isPySpace).reverse)

/-- Python `s.lower()` on a string. -/
def pyLower (s : String) : String :=
  String.mk (s.data.map Char.toLower)

/-- Python `v.strip()`: only strings have a `strip` attribute. -/
def pyStripAttr : JVal → Except PyErr String
  | .str s => .ok (pyStrip s)
  | _ => .error (.attributeError "strip")

/-- Python `v.lower()`: only strings have a `lower` attribute. -/
def pyLowerAttr : JVal → Except PyErr String
  | .str s => .ok (pyLower s)
  | _ => .error (.attributeError "lower")

/-- Python truthiness. -/
def pyTruthy : JVal → Bool
  | .null => false
  | .boolean b => b
  | .int n => n != 0
  | .str s => s != ""
  | .arr xs => !xs.isEmpty

mutual

/-- Python `repr` (simplified: string contents are not escaped; the inputs
exercised here contain no quotes). -/
def pyRepr : JVal → String
  | .null => "None"
  | .boolean b => if b then "True" else "False"
  | .int n => toString n
  | .str s => "\x27" ++ s ++ "\x27"
  | .arr xs => "[" ++ pyReprList xs ++ "]"

def pyReprList : List JVal → String
  | [] => ""
  | [x] => pyRepr x
  | x :: xs => pyRepr x ++ ", " ++ pyReprList xs

end

/-- Python `str(v)`. -/
def pyStr : JVal → String
  | .str s => s
  | v => pyRepr v

/-- Does `hay` start with `pat`? -/
def listStartsWith : List Char → List Char → Bool
  | [], _ => true
  | _ :: _, [] => false
  | p :: ps, h :: hs => p == h && listStartsWith ps hs

/-- Does `pat` occur as a contiguous sublist of `hay`? -/
def listContainsSub : List Char → List Char → Bool
  | pat, [] => listStartsWith pat []
  | pat, h :: t => listStartsWith pat (h :: t) || listContainsSub pat t

/-- Python substring membership `pat in s`. -/
def strContains (s pat : String) : Bool :=
  listContainsSub pat.data s.data

/-! ### `json.loads` / `json.dumps`

A recursive-descent parser and compact serializer for the JSON fragment the
response lines use (null, booleans, integers, strings with the common
escapes, arrays).  Python's `json.loads` raises `json.JSONDecodeError` (a
`ValueError`) on malformed input; that is `PyErr.jsonError` here. -/

/-- Drop leading JSON whitespace. -/
def skipWs (cs : List Char) : List Char :=
  cs.dropWhile (fun c => c = ' ' || c = '\t' || c = '\n' || c = '\r')

/-- Parse the body of a JSON string after the opening quote; returns the
string and the remaining characters after the closing quote. -/
def parseStringBody : Nat → List Char → Except PyErr (String × List Char)
  | 0, _ => .error .jsonError
  | _, [] => .error .jsonError
  | fuel + 1, c :: cs =>
    if c = '"' then .ok ("", cs)
    else if c = '\\' then
      match cs with
      | e :: cs2 =>
        let esc : Except PyErr Char :=
          if e = '"' then .ok '"'
          else if e = '\\' then .ok '\\'
          else if e = '/' then .ok '/'
          else if e = 'n' then .ok '\n'
          else if e = 't' then .ok '\t'
          else if e = 'r' then .ok '\r'
          else if e = 'b' then .ok (Char.ofNat 8)
          else if e = 'f' then .ok (Char.ofNat 12)
          else .error .jsonError
        match esc with
        | .ok ch =>
          match parseStringBody fuel cs2 with
          | .ok (s, r) => .ok (String.singleton ch ++ s, r)
          | .error err => .error err
        | .error err => .error err
      | [] => .error .jsonError
    else
      match parseStringBody fuel cs with
      | .ok (s, r) => .ok (String.singleton c ++ s, r)
      | .error err => .error err

/-- Parse a run of decimal digits into a `Nat`, returning the rest. -/
def parseDigits (acc : Nat) : List Char → (Nat × List Char)
  | [] => (acc, [])
  | c :: cs =>
    if c.isDigit then parseDigits (acc * 10 + (c.toNat - '0'.toNat)) cs
    else (acc, c :: cs)

mutual

/-- Parse a single JSON value; `fuel` bounds the recursion. -/
def parseVal : Nat → List Char → Except PyErr (JVal × List Char)
  | 0, _ => .error .jsonError
  | fuel + 1, cs =>
    match skipWs cs with
    | [] => .error .jsonError
    | c :: rest =>
      if c = 'n' then
        match rest with
        | 'u' :: 'l' :: 'l' :: r => .ok (.null, r)
        | _ => .error .jsonError
      else if c = 't' then
        match rest with
        | 'r' :: 'u' :: 'e' :: r => .ok (.boolean true, r)
        | _ => .error .jsonError
      else if c = 'f' then
        match rest with
        | 'a' :: 'l' :: 's' :: 'e' :: r => .ok (.boolean false, r)
        | _ => .error .jsonError
      else if c = '"' then
        match parseStringBody (rest.length + 1) rest with
        | .ok (s, r) => .ok (.str s, r)
        | .error err => .error err
      else if c = '[' then
        match skipWs rest with
        | ']' :: r => .ok (.arr [], r)
        | cs2 =>
          match parseArrItems fuel cs2 with
          | .ok (vs, r) => .ok (.arr vs, r)
          | .error err => .error err
      else if c = '-' then
        match rest with
        | d :: _ =>
          if d.isDigit then
            let (n, r) := parseDigits 0 rest
            .ok (.int (-(n : Int)), r)
          else .error .jsonError
        | [] => .error .jsonError
      else if c.isDigit then
        let (n, r) := parseDigits 0 (c :: rest)
        .ok (.int (n : Int), r)
      else .error .jsonError

/-- Parse the items of a non-empty JSON array (after the opening bracket). -/
def parseArrItems : Nat → List Char → Except PyErr (List JVal × List Char)
  | 0, _ => .error .jsonError
  | fuel + 1, cs =>
    match parseVal fuel cs with
    | .ok (v, r) =>
      match skipWs r with
      | ',' :: r2 =>
        match parseArrItems fuel r2 with
        | .ok (vs, r3) => .ok (v :: vs, r3)
        | .error err => .error err
      | ']' :: r2 => .ok ([v], r2)
      | _ => .error .jsonError
    | .error err => .error err

end

/-- Python `json.loads` on a string. -/
def json_loads (s : String) : Except PyErr JVal :=
  match parseVal (s.length + 2) s.data with
  | .ok (v, rest) =>
    if (skipWs rest).isEmpty then .ok v else .error .jsonError
  | .error err => .error err

/-- `json.loads` applied to a Python value: only strings are accepted. -/
def json_loads_val : JVal → Except PyErr JVal
  | .str s => json_loads s
  | _ => .error .typeError

/-- Escape a character for a JSON string literal. -/
def jsonEscapeChar (c : Char) : String :=
  if c = '"' then "\\\""
  else if c = '\\' then "\\\\"
  else if c = '\n' then "\\n"
  else if c = '\t' then "\\t"
  else if c = '\r' then "\\r"
  else String.singleton c

/-- Escape a string for a JSON string literal. -/
def jsonEscape (s : String) : String :=
  s.data.foldl (fun acc c => acc ++ jsonEscapeChar c) ""

mutual

/-- Python `json.dumps(v, separators=(",", ":"))`: compact serialization. -/
def json_dumps : JVal → String
  | .null => "null"
  | .boolean true => "true"
  | .boolean false => "false"
  | .int n => toString n
  | .str s => "\"" ++ jsonEscape s ++ "\""
  | .arr xs => "[" ++ json_dumpsList xs ++ "]"

def json_dumpsList : List JVal → String
  | [] => ""
  | [x] => json_dumps x
  | x :: xs => json_dumps x ++ "," ++ json_dumpsList xs

end

/-- Upper-case hexadecimal digit. -/
def hexDigit (n : Nat) : Char :=
  if n < 10 then Char.ofNat ('0'.toNat + n) else Char.ofNat ('A'.toNat + (n - 10))

/-- Is the byte left unescaped by `urllib.parse.quote` (default `safe="/"`)? -/
def quoteSafeByte (n : Nat) : Bool :=
  (n ≥ 'A'.toNat && n ≤ 'Z'.toNat) || (n ≥ 'a'.toNat && n ≤ 'z'.toNat) ||
  (n ≥ '0'.toNat && n ≤ '9'.toNat) ||
  n = '-'.toNat || n = '.'.toNat || n = '_'.toNat || n = '~'.toNat || n = '/'.toNat

/-- The UTF-8 encoding of a character, as byte values. -/
def utf8Bytes (c : Char) : List Nat :=
  let n := c.toNat
  if n < 0x80 then [n]
  else if n < 0x800 then [0xC0 + n / 64, 0x80 + n % 64]
  else if n < 0x10000 then [0xE0 + n / 4096, 0x80 + (n / 64) % 64, 0x80 + n % 64]
  else [0xF0 + n / 262144, 0x80 + (n / 4096) % 64, 0x80 + (n / 64) % 64, 0x80 + n % 64]

/-- Python `urllib.parse.quote` (UTF-8, default safe characters). -/
def quote (s : String) : String :=
  (s.data.flatMap utf8Bytes).foldl
    (fun acc b =>
      if quoteSafeByte b then acc ++ String.singleton (Char.ofNat b)
      else acc ++ "%" ++ String.singleton (hexDigit (b / 16)) ++
        String.singleton (hexDigit (b % 16)))
    ""

/-! ### Static data (constants module)

The repository's constants module is not under `src/`; only its names are
imported by `translate.py`.  The values below are modelled from the spec. -/

/-- Modelled from the spec: the fixed candidate set of RPC identifiers,
described as "several interchangeable values" from which the request
builder makes "a randomly chosen RPC identifier" (`GOOGLE_TTS_RPC` in the
missing constants module).  Three representative candidate ids. -/
def GOOGLE_TTS_RPC : List String := ["MkEWBc", "AVdN8", "exi25c"]

/-- `GOOGLE_TTS_RPC[0]`, the marker `translate`/`detect` search response
lines for. -/
def rpcMarker : String := GOOGLE_TTS_RPC.headD ""

/-- Modelled from the spec: the static language table mapping language
code to display name (`LANGUAGES` in the missing constants module); the
spec's example is `"en" ↦ "english"`.  A representative subset. -/
def LANGUAGES : List (String × String) :=
  [("en", "english"), ("es", "spanish"), ("fr", "french"), ("de", "german"),
   ("it", "italian"), ("ja", "japanese"), ("ko", "korean"), ("zh-cn", "chinese (simplified)")]

/-- Modelled from the spec: the allow-list of known regional URL suffixes
(`URLS_SUFFIX` in the missing constants module). -/
def URLS_SUFFIX : List String := ["com", "co.uk", "co.jp", "fr", "de", "es", "it"]

/-- Modelled from the spec: the default URL suffix (`URL_SUFFIX_DEFAULT`). -/
def URL_SUFFIX_DEFAULT : String := "com"

/-! ### The client (`GoogleTranslate.__init__`) -/

/-- The attributes `GoogleTranslate.__init__` assigns (the `requests`
session object is transport configuration and carries no data the claims
touch). -/
structure GoogleTranslate where
  proxies : List (String × String)
  url_suffix : String
  base_url : String
  url : String
  timeout : Nat

/-- `GoogleTranslate.__init__`. -/
def GoogleTranslate.init (url_suffix : String) (timeout : Nat)
    (proxies : Option (List (String × String))) : GoogleTranslate :=
  let proxies := proxies.getD []
  let suffix := if url_suffix ∈ URLS_SUFFIX then url_suffix else URL_SUFFIX_DEFAULT
  let base_url := "https://translate.google." ++ suffix
  { proxies := proxies
    url_suffix := suffix
    base_url := base_url
    url := base_url ++ "/_/TranslateWebserverUi/data/batchexecute"
    timeout := timeout }

/-- Attribute lookup `tts.lang_check`.  `GoogleTranslate.__init__` assigns
only `proxies`, `url_suffix`, `base_url`, `url`, `timeout` and `session`
(translate.py lines 35-47) and no other method assigns attributes, so the
lookup raises `AttributeError`. -/
def GoogleTranslate.lang_check_attr (_ : GoogleTranslate) : Except PyErr JVal :=
  .error (.attributeError "lang_check")

/-- Attribute lookup `tts.lang`: likewise never assigned, so it raises
`AttributeError`. -/
def GoogleTranslate.lang_attr (_ : GoogleTranslate) : Except PyErr JVal :=
  .error (.attributeError "lang")

/-- An HTTP response: status code, reason phrase, and the body as decoded
lines (`iter_lines` + `decode("utf-8")`). -/
structure Resp where
  status : Nat
  reason : String
  lines : List String

/-! ### `exceptions.py` -/

/-- The `premise` string of `GoogleTranslateError.infer_msg`. -/
def premiseOf (r : Resp) : String :=
  toString r.status ++ " (" ++ r.reason ++ ") from TTS API"

/-- `GoogleTranslateError.infer_msg(tts, rsp)`.  The status-200 branch
evaluates `tts.lang_check` (and, in its f-string, `tts.lang`), so it can
raise `AttributeError`. -/
def infer_msg (tts : GoogleTranslate) (rsp : Option Resp) : Except PyErr String :=
  match rsp with
  | none => .ok "Failed to connect. Probable cause: timeout"
  | some r =>
    let premise := premiseOf r
    if r.status = 403 then
      .ok (premise ++ ". Probable cause: Bad token or upstream API changes")
    else
      (do
        let cond ←
          if r.status = 200 then do
            let lc ← tts.lang_check_attr
            pure (!(pyTruthy lc))
          else pure false
        if cond then do
          let lang ← tts.lang_attr
          pure (premise ++ ". Probable cause: No audio stream in response. Unsupported language \x27" ++
            pyStr lang ++ "\x27")
        else if r.status ≥ 500 then
          pure (premise ++ ". Probable cause: Upstream API error. Try again later.")
        else
          pure (premise ++ ". Probable cause: Unknown") : Except PyErr String)

/-- `GoogleTranslateError.__init__(msg, tts=…, response=…)`: the stored
`msg` (None when neither an explicit message nor a client is given). -/
def GoogleTranslateError_init (msg : Option String) (tts : Option GoogleTranslate)
    (rsp : Option Resp) : Except PyErr (Option String) :=
  match msg with
  | some m => .ok (some m)
  | none =>
    match tts with
    | some t =>
      match infer_msg t rsp with
      | .ok m => .ok (some m)
      | .error e => .error e
    | none => .ok none

/-! ### Request builder (`_f_req_data`, `_process_lang`) -/

/-- `GoogleTranslate._f_req_data(text, src_lang, tgt_lang)`;
`chosenRpc` is the outcome of `random.choice(GOOGLE_TTS_RPC)`.
`text.strip()` raises `AttributeError` on non-strings. -/
def f_req_data (text : JVal) (src_lang tgt_lang : String) (chosenRpc : String) :
    Except PyErr String := do
  let stripped ← pyStripAttr text
  let parameter : JVal :=
    .arr [.arr [.str stripped, .str src_lang, .str tgt_lang, .boolean true], .arr [.int 1]]
  let escaped_parameter := json_dumps parameter
  let rpc : JVal :=
    .arr [.arr [.arr [.str chosenRpc, .str escaped_parameter, .null, .str "generic"]]]
  let espaced_rpc := json_dumps rpc
  pure ("f.req=" ++ quote espaced_rpc ++ "&")

/-- `GoogleTranslate._process_lang(lang)` (the warning on the coercion
branch is a logging side effect with no data flow). -/
def process_lang (lang : String) : String :=
  if lang = "auto" then lang
  else if (LANGUAGES.lookup lang).isSome then lang
  else "auto"

/-! ### Response parser (`translate` lines 115-152, `detect` lines 193-203) -/

/-- One iteration of the sentence loop:
`sentence = sentence[0]; translate_text += sentence.strip() + " "`. -/
def sentenceStep (acc : String) (sentence : JVal) : Except PyErr String := do
  let s0 ← sentence.index 0
  let piece ← pyStripAttr s0
  pure (acc ++ (piece ++ " "))

/-- The body of `translate`'s inner `try` block on one matching line
(translate.py lines 119-150): decode the outer envelope, decode the nested
payload, dispatch on the translation array's length.  A length other than
1 or 2 returns `none` (the Python code falls through to the next line). -/
def parseTranslationLine (pronounce : Bool) (line : String) :
    Except PyErr (Option JVal) := do
  let outer ← json_loads line
  let response0 ← pyListV outer
  let response1 := response0
  let row ← listIndex response1 0
  let v02 ← row.index 2
  let payload ← json_loads_val v02
  let respU ← pyListV payload
  let r1 ← listIndex respU 1
  let response ← r1.index 0
  let n ← pyLenV response
  if n = 1 then
    let elem ← response.index 0
    let n0 ← pyLenV elem
    if 5 < n0 then do
      let sentences ← elem.index 5
      let items ← pyListV sentences
      let translate_text ← items.foldlM sentenceStep ""
      if pronounce = false then
        pure (some (.str translate_text))
      else do
        let pronounce_src ← (← listIndex respU 0).index 0
        let pronounce_tgt ← (← (← (← listIndex respU 1).index 0).index 0).index 1
        pure (some (.arr [.str translate_text, pronounce_src, pronounce_tgt]))
    else do
      let sentences ← elem.index 0
      if pronounce then
        pure (some (.arr [sentences, .null, .null]))
      else
        pure (some sentences)
  else if n = 2 then do
    let items ← pyListV response
    let sentences ← items.mapM (fun i => i.index 0)
    if pronounce = false then
      pure (some (.arr sentences))
    else do
      let pronounce_src ← (← listIndex respU 0).index 0
      let pronounce_tgt ← (← (← (← listIndex respU 1).index 0).index 0).index 1
      pure (some (.arr [.arr sentences, pronounce_src, pronounce_tgt]))
  else
    pure none

/-- The line loop of `translate` (lines 115-152): each line is tested for
`GOOGLE_TTS_RPC[0]`; a matching line is parsed, and a translation array of
a length other than 1 or 2 falls through to the next line.  `ok none`
means the loop finished with no result. -/
def translateLoop (pronounce : Bool) : List String → Except PyErr (Option JVal)
  | [] => .ok none
  | line :: rest =>
    if strContains line rpcMarker then
      match parseTranslationLine pronounce line with
      | .ok (some v) => .ok (some v)
      | .ok none => translateLoop pronounce rest
      | .error e => .error e
    else translateLoop pronounce rest

/-- The line loop of `detect` (lines 193-203): decode the outer envelope,
decode the payload (one fewer layer than `translate`), read the code at
`response[0][2]`, lower-case it, and look it up in `LANGUAGES` (a missing
key raises `KeyError`).  Any matching line returns or raises. -/
def detectLoop : List String → Except PyErr (Option (String × String))
  | [] => .ok none
  | line :: rest =>
    if strContains line rpcMarker then do
      let response ← json_loads line
      let v02 ← (← response.index 0).index 2
      let payload ← json_loads_val v02
      let dl ← (← payload.index 0).index 2
      let detected_lang ← pyLowerAttr dl
      match LANGUAGES.lookup detected_lang with
      | some name => pure (some (detected_lang, name))
      | none => .error (.keyError detected_lang)
    else detectLoop rest

/-- `requests.Response.raise_for_status()`: raises `HTTPError` for
4xx/5xx statuses. -/
def raiseStatus (r : Resp) : Bool :=
  400 ≤ r.status && r.status < 600

/-- The outcome of the validation phase that runs before the HTTP POST:
either an early return value, or a request with the given payload is
sent. -/
inductive GuardOut where
  | early (v : JVal)
  | send (payload : String)

/-- The part of `translate` that runs before `session.post`
(lines 99-111): `str()` coercion, the two size guards, language
processing, payload construction. -/
def translateGuard (textV : JVal) (source_lang target_lang : String)
    (chosenRpc : String) : Except PyErr GuardOut := do
  let text := pyStr textV
  if text.length ≥ 5000 then
    pure (.early .null)
  else if text.length = 0 then
    pure (.early (.str ""))
  else do
    let src_lang := process_lang source_lang
    let tgt_lang := process_lang target_lang
    let payload ← f_req_data (.str text) src_lang tgt_lang chosenRpc
    pure (.send payload)

/-- The part of `translate` that runs from `session.post` on
(lines 113-164): run the line loop; when it produces no result,
`raise_for_status` turns a 4xx/5xx status into an `HTTPError`, which the
handler converts into a `GoogleTranslateError` built from the client and
the response; a non-error status falls off the end of the function
(Python returns `None`). -/
def translatePost (tts : GoogleTranslate) (pronounce : Bool) (net : Resp) :
    Except PyErr JVal :=
  match translateLoop pronounce net.lines with
  | .ok (some v) => .ok v
  | .ok none =>
    if raiseStatus net then
      match GoogleTranslateError_init none (some tts) (some net) with
      | .ok m => .error (.googleTranslateError m)
      | .error e => .error e
    else .ok .null
  | .error e => .error e

/-- `GoogleTranslate.translate(text, source_lang, target_lang, pronounce)`.
`chosenRpc` models `random.choice(GOOGLE_TTS_RPC)` inside `_f_req_data`,
and `net` the HTTP response. -/
def translate (tts : GoogleTranslate) (textV : JVal)
    (source_lang target_lang : String) (pronounce : Bool)
    (chosenRpc : String) (net : Resp) : Except PyErr JVal := do
  let g ← translateGuard textV source_lang target_lang chosenRpc
  match g with
  | .early v => pure v
  | .send _ => translatePost tts pronounce net

/-- The part of `detect` that runs before `session.post` (lines 180-189):
`len()` on the raw argument (no `str()` coercion), the two size guards,
payload construction. -/
def detectGuard (textV : JVal) (chosenRpc : String) : Except PyErr GuardOut := do
  let l ← pyLenV textV
  if l ≥ 5000 then
    pure (.early .null)
  else if l = 0 then
    pure (.early .null)
  else do
    let payload ← f_req_data textV "auto" "auto" chosenRpc
    pure (.send payload)

/-- The part of `detect` from `session.post` on (lines 191-204). -/
def detectPost (tts : GoogleTranslate) (net : Resp) :
    Except PyErr (Option (String × String)) :=
  match detectLoop net.lines with
  | .ok (some v) => .ok (some v)
  | .ok none =>
    if raiseStatus net then
      match GoogleTranslateError_init none (some tts) (some net) with
      | .ok m => .error (.googleTranslateError m)
      | .error e => .error e
    else .ok none
  | .error e => .error e

/-- `GoogleTranslate.detect(text)`.  The result is the single-entry
mapping `{detected_lang: LANGUAGES[detected_lang]}`, modelled as the
key/value pair; `none` is Python's `None`. -/
def detect (tts : GoogleTranslate) (textV : JVal) (chosenRpc : String)
    (net : Resp) : Except PyErr (Option (String × String)) := do
  let g ← detectGuard textV chosenRpc
  match g with
  | .early _ => pure none
  | .send _ => detectPost tts net

/-- Definition following the spec's words, for refinement comparison with
`translateLoop`: "select the first line containing the RPC-id marker used
in the request" — i.e. the *chosen* id, not `GOOGLE_TTS_RPC[0]` — "if none
found, produce no result". -/
def translateLoopSpec (usedRpc : String) (pronounce : Bool) (lines : List String) :
    Except PyErr (Option JVal) :=
  match lines.find? (fun l => strContains l usedRpc) with
  | some l => parseTranslationLine pronounce l
  | none => .ok none

/-! ### Abbreviations used in the statements -/

/-- A sentence fragment as it appears at position 5 of the single-sentence
shape: an array whose first element is the text piece, possibly followed
by further entries. -/
def fragVal (f : String × List JVal) : JVal := .arr (.str f.1 :: f.2)

/-- The string the sentence loop accumulates: each piece stripped, a
single space appended after each piece. -/
def joinPieces : List String → String
  | [] => ""
  | p :: ps => (pyStrip p ++ " ") ++ joinPieces ps

/-! ### Mocked fixtures (concrete inputs for witnesses and counterexamples) -/

/-- A client constructed with the default configuration. -/
def demoTts : GoogleTranslate := GoogleTranslate.init "com" 5 none

/-- A mocked response line: the outer RPC envelope wrapping a payload,
tagged with the given RPC id. -/
def mkLine (rpcTag : String) (payload : JVal) : String :=
  json_dumps (.arr [.arr [.str "wrb.fr", .str rpcTag, .str (json_dumps payload),
    .null, .null, .null, .str "generic"]])

/-- The spec's example fragments: `["Hola", " "]` and `["mundo"]`. -/
def demoFrags : List (String × List JVal) := [("Hola", [.str " "]), ("mundo", [])]

/-- The single element of the single-sentence translation array: 6
positions, position 5 the fragments, position 1 (the target-pronunciation
position) null. -/
def psC1 : List JVal :=
  [.str "x", .null, .null, .null, .null, .arr (demoFrags.map fragVal)]

/-- Single-sentence payload (translation array of length 1, element with 6
positions, position 5 the fragments; pronunciation positions null). -/
def payC1 : JVal :=
  .arr [.arr [.null], .arr [.arr [.arr psC1]]]

/-- Single-sentence mocked line tagged with `GOOGLE_TTS_RPC[0]`. -/
def lineC1 : String := mkLine "MkEWBc" payC1

/-- The same single-sentence payload tagged with the *second* candidate
RPC id. -/
def lineC2 : String := mkLine "AVdN8" payC1

/-- The form payload `_f_req_data` produces when the chosen RPC id is
`"AVdN8"`. -/
def demoFreqC2 : String :=
  ((f_req_data (.str "hello") "auto" "es" "AVdN8").toOption).getD ""

/-- Bare-URL payload (translation array of length 1, element with 2
positions). -/
def payC3 : JVal :=
  .arr [.arr [.null], .arr [.arr [.arr [.str "http://example.com", .null]]]]

/-- Bare-URL mocked line. -/
def lineC3 : String := mkLine "MkEWBc" payC3

/-- Two-candidate payload (translation array of length 2) with source
pronunciation `"PSRC"` and target pronunciation `"PTGT"`. -/
def payC4 : JVal :=
  .arr [.arr [.str "PSRC"],
        .arr [.arr [.arr [.str "one", .str "PTGT"], .arr [.str "two"]]]]

/-- Two-candidate mocked line. -/
def lineC4 : String := mkLine "MkEWBc" payC4

/-- Single-sentence payload with both pronunciation positions null (the
payload envelope's first branch holds null at position 0, and the
element's position 1 is null). -/
def payC5 : JVal := payC1

/-- Mocked line for the omitted-pronunciation case. -/
def lineC5 : String := mkLine "MkEWBc" payC5

/-- Detection payload carrying the upper-cased code `"EN"` at
`response[0][2]`. -/
def payC8 : JVal := .arr [.arr [.null, .null, .str "EN"], .null]

/-- Detection mocked line. -/
def lineC8 : String := mkLine "MkEWBc" payC8

/-- A 5000-character text. -/
def bigText : String := String.mk (List.replicate 5000 'a')

/-! ## Lemmas -/

@[simp]
theorem pyPure {α : Type} (a : α) : (pure a : Except PyErr α) = .ok a := rfl

@[simp]
theorem pyOkBind {α β : Type} (a : α) (k : α → Except PyErr β) :
    ((Except.ok a : Except PyErr α) >>= k) = k a := rfl

@[simp]
theorem pyErrBind {α β : Type} (e : PyErr) (k : α → Except PyErr β) :
    ((Except.error e : Except PyErr α) >>= k) = .error e := rfl

/-- Passing the guards: a non-empty string text shorter than 5000
characters reaches the POST phase. -/
theorem translate_sends (tts : GoogleTranslate) (textstr source_lang target_lang : String)
    (pronounce : Bool) (chosenRpc : String) (net : Resp)
    (h1 : 0 < textstr.length) (h2 : textstr.length < 5000) :
    translate tts (.str textstr) source_lang target_lang pronounce chosenRpc net =
      translatePost tts pronounce net := by
  have hge : ¬ textstr.length ≥ 5000 := by omega
  have hz : ¬ textstr.length = 0 := by omega
  simp [translate, translateGuard, pyStr, hge, hz, f_req_data, pyStripAttr]

/-- Passing the guards in `detect`. -/
theorem detect_sends (tts : GoogleTranslate) (textstr : String)
    (chosenRpc : String) (net : Resp)
    (h1 : 0 < textstr.length) (h2 : textstr.length < 5000) :
    detect tts (.str textstr) chosenRpc net = detectPost tts net := by
  have hge : ¬ textstr.length ≥ 5000 := by omega
  have hz : ¬ textstr.length = 0 := by omega
  simp [detect, detectGuard, pyLenV, hge, hz, f_req_data, pyStripAttr]

/-- The sentence loop on fragments in the modelled shape. -/
theorem sentenceFold (frags : List (String × List JVal)) (acc : String) :
    List.foldlM sentenceStep acc (frags.map fragVal) =
      .ok (acc ++ joinPieces (frags.map Prod.fst)) := by
  induction frags generalizing acc with
  | nil => simp [joinPieces, List.foldlM]
  | cons f fs ih =>
    simp [List.foldlM, sentenceStep, fragVal, JVal.index, listIndex, pyStripAttr,
      ih, joinPieces, String.append_assoc]

@[simp]
theorem pyListV_arr (xs : List JVal) : pyListV (.arr xs) = .ok xs := rfl

@[simp]
theorem pyLenV_arr (xs : List JVal) : pyLenV (.arr xs) = .ok xs.length := rfl

@[simp]
theorem index_arr (xs : List JVal) (i : Nat) : (JVal.arr xs).index i = listIndex xs i := rfl

@[simp]
theorem json_loads_val_str (s : String) : json_loads_val (.str s) = json_loads s := rfl

@[simp]
theorem listIndex_cons_zero (x : JVal) (xs : List JVal) : listIndex (x :: xs) 0 = .ok x := rfl

@[simp]
theorem listIndex_cons_one (x y : JVal) (xs : List JVal) :
    listIndex (x :: y :: xs) 1 = .ok y := rfl

@[simp]
theorem listIndex_cons_two (x y z : JVal) (xs : List JVal) :
    listIndex (x :: y :: z :: xs) 2 = .ok z := rfl

/-- The accumulated translation text ends in a space when there is at
least one fragment. -/
theorem joinPieces_trailing (ps : List String) (h : ps ≠ []) :
    ∃ s, joinPieces ps = s ++ " " := by
  induction ps with
  | nil => exact absurd rfl h
  | cons p rest ih =>
    cases rest with
    | nil => exact ⟨pyStrip p, by simp [joinPieces]⟩
    | cons q qs =>
      obtain ⟨s, hs⟩ := ih (by simp)
      exact ⟨pyStrip p ++ " " ++ s, by
        rw [joinPieces, hs, String.append_assoc, String.append_assoc,
          String.append_assoc]⟩

/-- Processing one matching line whose payload has the single-sentence
shape (translation array of length 1, element with more than 5 positions,
fragments at position 5), with `pronounce=False`. -/
theorem parse_single_sentence
    {line payloadStr : String} {a0 a1 : JVal} {arest orest : List JVal}
    {b0 : JVal} {b1tail prest : List JVal}
    {ps : List JVal} {frags : List (String × List JVal)}
    (hline : json_loads line =
      .ok (.arr (.arr (a0 :: a1 :: .str payloadStr :: arest) :: orest)))
    (hpay : json_loads payloadStr =
      .ok (.arr (b0 :: .arr (.arr [.arr ps] :: b1tail) :: prest)))
    (hlen : 5 < ps.length)
    (hfrag : ps.get? 5 = some (.arr (frags.map fragVal))) :
    parseTranslationLine false line =
      .ok (some (.str (joinPieces (frags.map Prod.fst)))) := by
  have hfrag2 : ps[5] = JVal.arr (frags.map fragVal) := by
    have h5 := hfrag
    rw [List.get?_eq_getElem?, List.getElem?_eq_getElem hlen] at h5
    exact Option.some.inj h5
  simp [parseTranslationLine, hline, hpay, listIndex, hlen, hfrag2, sentenceFold]

/-- Processing one matching line in the single-sentence shape with
`pronounce=True`: the source pronunciation is read from position 0 of the
payload envelope's first branch, the target pronunciation from the
element's position 1. -/
theorem parse_single_sentence_pron
    {line payloadStr : String} {a0 a1 : JVal} {arest orest : List JVal}
    {psrc : JVal} {b0rest b1tail prest : List JVal}
    {ps : List JVal} {ptgt : JVal} {frags : List (String × List JVal)}
    (hline : json_loads line =
      .ok (.arr (.arr (a0 :: a1 :: .str payloadStr :: arest) :: orest)))
    (hpay : json_loads payloadStr =
      .ok (.arr (.arr (psrc :: b0rest) :: .arr (.arr [.arr ps] :: b1tail) :: prest)))
    (hlen : 5 < ps.length)
    (hfrag : ps.get? 5 = some (.arr (frags.map fragVal)))
    (hptgt : ps.get? 1 = some ptgt) :
    parseTranslationLine true line =
      .ok (some (.arr [.str (joinPieces (frags.map Prod.fst)), psrc, ptgt])) := by
  have hlen1 : 1 < ps.length := by omega
  have hfrag2 : ps[5] = JVal.arr (frags.map fragVal) := by
    have h5 := hfrag
    rw [List.get?_eq_getElem?, List.getElem?_eq_getElem hlen] at h5
    exact Option.some.inj h5
  have hptgt2 : ps[1] = ptgt := by
    have h1 := hptgt
    rw [List.get?_eq_getElem?, List.getElem?_eq_getElem hlen1] at h1
    exact Option.some.inj h1
  simp [parseTranslationLine, hline, hpay, listIndex, hlen, hlen1, hfrag2, hptgt2,
    sentenceFold]

/-- Processing one matching line in the bare-string shape (element with at
most 5 positions), `pronounce=False`: position 0 is returned as is. -/
theorem parse_bare_false
    {line payloadStr : String} {a0 a1 : JVal} {arest orest : List JVal}
    {b0 : JVal} {b1tail prest : List JVal}
    {v0 : JVal} {ptail : List JVal}
    (hline : json_loads line =
      .ok (.arr (.arr (a0 :: a1 :: .str payloadStr :: arest) :: orest)))
    (hpay : json_loads payloadStr =
      .ok (.arr (b0 :: .arr (.arr [.arr (v0 :: ptail)] :: b1tail) :: prest)))
    (hle : ptail.length ≤ 4) :
    parseTranslationLine false line = .ok (some v0) := by
  have hnl : ¬ 5 < ptail.length + 1 := by omega
  simp [parseTranslationLine, hline, hpay, listIndex, hnl]

/-- Processing one matching line in the bare-string shape with
`pronounce=True`: the result is the triple `[position-0, None, None]`. -/
theorem parse_bare_true
    {line payloadStr : String} {a0 a1 : JVal} {arest orest : List JVal}
    {b0 : JVal} {b1tail prest : List JVal}
    {v0 : JVal} {ptail : List JVal}
    (hline : json_loads line =
      .ok (.arr (.arr (a0 :: a1 :: .str payloadStr :: arest) :: orest)))
    (hpay : json_loads payloadStr =
      .ok (.arr (b0 :: .arr (.arr [.arr (v0 :: ptail)] :: b1tail) :: prest)))
    (hle : ptail.length ≤ 4) :
    parseTranslationLine true line = .ok (some (.arr [v0, .null, .null])) := by
  have hnl : ¬ 5 < ptail.length + 1 := by omega
  simp [parseTranslationLine, hline, hpay, listIndex, hnl]

/-- Processing one matching line in the two-candidate shape,
`pronounce=False`: the two elements' position-0 values, in order. -/
theorem parse_two_false
    {line payloadStr : String} {a0 a1 : JVal} {arest orest : List JVal}
    {b0 : JVal} {b1tail prest : List JVal}
    {x1 x2 : JVal} {r1 r2 : List JVal}
    (hline : json_loads line =
      .ok (.arr (.arr (a0 :: a1 :: .str payloadStr :: arest) :: orest)))
    (hpay : json_loads payloadStr =
      .ok (.arr (b0 :: .arr (.arr [.arr (x1 :: r1), .arr (x2 :: r2)] :: b1tail) :: prest))) :
    parseTranslationLine false line = .ok (some (.arr [x1, x2])) := by
  simp [parseTranslationLine, hline, hpay, listIndex, List.mapM, List.mapM.loop]

/-- Processing one matching line in the two-candidate shape,
`pronounce=True`: the sequence plus both pronunciations (the target
pronunciation is the first element's position 1). -/
theorem parse_two_true
    {line payloadStr : String} {a0 a1 : JVal} {arest orest : List JVal}
    {psrc : JVal} {b0rest b1tail prest : List JVal}
    {x1 y1 x2 : JVal} {r1 r2 : List JVal}
    (hline : json_loads line =
      .ok (.arr (.arr (a0 :: a1 :: .str payloadStr :: arest) :: orest)))
    (hpay : json_loads payloadStr =
      .ok (.arr (.arr (psrc :: b0rest) ::
        .arr (.arr [.arr (x1 :: y1 :: r1), .arr (x2 :: r2)] :: b1tail) :: prest))) :
    parseTranslationLine true line = .ok (some (.arr [.arr [x1, x2], psrc, y1])) := by
  simp [parseTranslationLine, hline, hpay, listIndex, List.mapM, List.mapM.loop]

/-- The line loop and the post-POST phase on a single matching line whose
parse succeeds. -/
theorem translatePost_single (tts : GoogleTranslate) (p : Bool) (status : Nat)
    (reason line : String) (v : JVal)
    (hm : strContains line rpcMarker = true)
    (hp : parseTranslationLine p line = .ok (some v)) :
    translatePost tts p ⟨status, reason, [line]⟩ = .ok v := by
  simp [translatePost, translateLoop, hm, hp]

/-- `detect`'s loop on a single matching detection line: the detected code
at `response[0][2]` is lower-cased and looked up in `LANGUAGES`. -/
theorem detectPost_single (tts : GoogleTranslate) (status : Nat)
    (reason line payloadStr : String) {a0 a1 : JVal} {arest orest : List JVal}
    {c0 c1 : JVal} {crest prest : List JVal} (code : String)
    (hm : strContains line rpcMarker = true)
    (hline : json_loads line =
      .ok (.arr (.arr (a0 :: a1 :: .str payloadStr :: arest) :: orest)))
    (hpay : json_loads payloadStr =
      .ok (.arr (.arr (c0 :: c1 :: .str code :: crest) :: prest))) :
    detectPost tts ⟨status, reason, [line]⟩ =
      (match LANGUAGES.lookup (pyLower code) with
       | some name => .ok (some (pyLower code, name))
       | none => .error (.keyError (pyLower code))) := by
  simp only [detectPost, detectLoop, hm, if_true]
  simp [hline, hpay, listIndex, pyLowerAttr]
  cases LANGUAGES.lookup (pyLower code) <;> simp

/-- Lines that do not contain `GOOGLE_TTS_RPC[0]` are skipped by
`translate`'s loop. -/
theorem translateLoop_skip (p : Bool) (pre rest : List String)
    (h : ∀ l ∈ pre, strContains l rpcMarker = false) :
    translateLoop p (pre ++ rest) = translateLoop p rest := by
  induction pre with
  | nil => rfl
  | cons a as ih =>
    have ha : strContains a rpcMarker = false := h a (by simp)
    simp only [List.cons_append, translateLoop, ha, Bool.false_eq_true, if_false]
    exact ih (fun l hl => h l (by simp [hl]))

/-- Lines that do not contain `GOOGLE_TTS_RPC[0]` are skipped by
`detect`'s loop. -/
theorem detectLoop_skip (pre rest : List String)
    (h : ∀ l ∈ pre, strContains l rpcMarker = false) :
    detectLoop (pre ++ rest) = detectLoop rest := by
  induction pre with
  | nil => rfl
  | cons a as ih =>
    have ha : strContains a rpcMarker = false := h a (by simp)
    simp only [List.cons_append, detectLoop, ha, Bool.false_eq_true, if_false]
    exact ih (fun l hl => h l (by simp [hl]))

/-- With no line containing `GOOGLE_TTS_RPC[0]`, both loops end with no
result. -/
theorem loops_none (p : Bool) (lines : List String)
    (h : ∀ l ∈ lines, strContains l rpcMarker = false) :
    translateLoop p lines = .ok none ∧ detectLoop lines = .ok none := by
  constructor
  · have := translateLoop_skip p lines [] h
    simpa using this
  · have := detectLoop_skip lines [] h
    simpa using this

/-! ## Claims -/

/-- Claim C1: for a mocked response whose translation array has length 1
and whose single element has more than 5 positions, `translate` (with
`pronounce=False`) treats position 5 as the list of sentence fragments and
returns the concatenation of each fragment's first element, stripping each
piece and appending a single space after it; with at least one fragment
the result therefore ends with a trailing space. -/
theorem C1_single_sentence_concat
    (tts : GoogleTranslate) {textstr source_lang target_lang chosenRpc : String}
    {status : Nat} {reason : String}
    {line payloadStr : String} {a0 a1 : JVal} {arest orest : List JVal}
    {b0 : JVal} {b1tail prest : List JVal}
    {ps : List JVal} {frags : List (String × List JVal)}
    (h1 : 0 < textstr.length) (h2 : textstr.length < 5000)
    (hm : strContains line rpcMarker = true)
    (hline : json_loads line =
      .ok (.arr (.arr (a0 :: a1 :: .str payloadStr :: arest) :: orest)))
    (hpay : json_loads payloadStr =
      .ok (.arr (b0 :: .arr (.arr [.arr ps] :: b1tail) :: prest)))
    (hlen : 5 < ps.length)
    (hfrag : ps.get? 5 = some (.arr (frags.map fragVal))) :
    translate tts (.str textstr) source_lang target_lang false chosenRpc
        ⟨status, reason, [line]⟩ =
      .ok (.str (joinPieces (frags.map Prod.fst)))
    ∧ (frags ≠ [] → ∃ s, joinPieces (frags.map Prod.fst) = s ++ " ") := by
  constructor
  · rw [translate_sends tts textstr source_lang target_lang false chosenRpc _ h1 h2]
    exact translatePost_single tts false status reason line _ hm
      (parse_single_sentence hline hpay hlen hfrag)
  · intro hne
    exact joinPieces_trailing _ (by simpa using hne)

/-- Witness for C1: the spec's example fragments yield `"Hola mundo "`. -/
theorem C1_witness :
    translate demoTts (.str "hello") "auto" "es" false "MkEWBc"
        ⟨200, "OK", [lineC1]⟩ = .ok (.str (joinPieces (demoFrags.map Prod.fst)))
    ∧ joinPieces (demoFrags.map Prod.fst) = "Hola mundo " := by
  have hline : json_loads lineC1 =
      Except.ok (JVal.arr (JVal.arr (JVal.str "wrb.fr" :: JVal.str "MkEWBc" ::
        JVal.str (json_dumps payC1) ::
        [JVal.null, JVal.null, JVal.null, JVal.str "generic"]) :: [])) := rfl
  have hpay : json_loads (json_dumps payC1) =
      Except.ok (JVal.arr (JVal.arr [JVal.null] ::
        JVal.arr (JVal.arr [JVal.arr psC1] :: []) :: [])) := rfl
  exact ⟨(C1_single_sentence_concat demoTts (by decide) (by decide) (by rfl) hline hpay
    (by decide) (by rfl)).1, rfl⟩

/-- Claim C2 (amended): both loops test each line for the *first*
candidate RPC id `GOOGLE_TTS_RPC[0]`, not the id that was randomly chosen
and embedded in the outgoing payload; lines without `GOOGLE_TTS_RPC[0]`
are skipped in order, and when no line contains `GOOGLE_TTS_RPC[0]` no
parsed result is produced (with a 200 status, `translate` returns `None`
and `detect` returns `None`). -/
theorem C2_first_candidate_marker
    (p : Bool) (pre rest : List String) (tts : GoogleTranslate)
    (textstr source_lang target_lang chosenRpc reason : String) (lines : List String)
    (hpre : ∀ l ∈ pre, strContains l rpcMarker = false)
    (h1 : 0 < textstr.length) (h2 : textstr.length < 5000)
    (hnone : ∀ l ∈ lines, strContains l rpcMarker = false) :
    rpcMarker = GOOGLE_TTS_RPC.headD ""
    ∧ translateLoop p (pre ++ rest) = translateLoop p rest
    ∧ detectLoop (pre ++ rest) = detectLoop rest
    ∧ translate tts (.str textstr) source_lang target_lang p chosenRpc
        ⟨200, reason, lines⟩ = .ok .null
    ∧ detect tts (.str textstr) chosenRpc ⟨200, reason, lines⟩ = .ok none := by
  refine ⟨rfl, translateLoop_skip p pre rest hpre, detectLoop_skip pre rest hpre, ?_, ?_⟩
  · rw [translate_sends tts textstr source_lang target_lang p chosenRpc _ h1 h2]
    simp [translatePost, (loops_none p lines hnone).1, raiseStatus]
  · rw [detect_sends tts textstr chosenRpc _ h1 h2]
    simp [detectPost, (loops_none p lines hnone).2, raiseStatus]

/-- Witness for C2 (amended), at concrete inputs. -/
theorem C2_witness :
    translate demoTts (.str "hi") "auto" "auto" false "MkEWBc"
        ⟨200, "OK", ["plain line"]⟩ = .ok .null
    ∧ detect demoTts (.str "hi") "MkEWBc" ⟨200, "OK", ["plain line"]⟩ = .ok none
    ∧ translateLoop false (["no marker"] ++ []) = translateLoop false [] := by
  have h := C2_first_candidate_marker false ["no marker"] [] demoTts "hi" "auto"
    "auto" "MkEWBc" "OK" ["plain line"] (by decide) (by decide) (by decide) (by decide)
  exact ⟨h.2.2.2.1, h.2.2.2.2, h.2.1⟩

/-- Counterexample for C2 as stated: the request embeds the chosen
candidate id `"AVdN8"` (visible in the form payload), a response line
contains that id and parses to a translation, yet `translate` produces no
result, because the loop matches on `GOOGLE_TTS_RPC[0] = "MkEWBc"` and not
on the id used in the request. -/
theorem C2_counterexample :
    ("AVdN8" ∈ GOOGLE_TTS_RPC)
    ∧ strContains demoFreqC2 "AVdN8" = true
    ∧ strContains lineC2 "AVdN8" = true
    ∧ translateLoopSpec "AVdN8" false [lineC2] = .ok (some (.str "Hola mundo "))
    ∧ translate demoTts (.str "hello") "auto" "es" false "AVdN8"
        ⟨200, "OK", [lineC2]⟩ = .ok .null :=
  ⟨by decide, rfl, rfl, rfl, rfl⟩

/-- Claim C3: for a mocked response whose translation array has length 1
and whose single element has at most 5 positions, `translate` with
`pronounce=False` returns the element's position 0 as a bare string, and
with `pronounce=True` returns the triple `[text, None, None]`. -/
theorem C3_bare_url
    (tts : GoogleTranslate) {textstr source_lang target_lang chosenRpc : String}
    {status : Nat} {reason : String}
    {line payloadStr : String} {a0 a1 : JVal} {arest orest : List JVal}
    {b0 : JVal} {b1tail prest : List JVal}
    {s : String} {ptail : List JVal}
    (h1 : 0 < textstr.length) (h2 : textstr.length < 5000)
    (hm : strContains line rpcMarker = true)
    (hline : json_loads line =
      .ok (.arr (.arr (a0 :: a1 :: .str payloadStr :: arest) :: orest)))
    (hpay : json_loads payloadStr =
      .ok (.arr (b0 :: .arr (.arr [.arr (.str s :: ptail)] :: b1tail) :: prest)))
    (hle : ptail.length ≤ 4) :
    translate tts (.str textstr) source_lang target_lang false chosenRpc
        ⟨status, reason, [line]⟩ = .ok (.str s)
    ∧ translate tts (.str textstr) source_lang target_lang true chosenRpc
        ⟨status, reason, [line]⟩ = .ok (.arr [.str s, .null, .null]) := by
  constructor
  · rw [translate_sends tts textstr source_lang target_lang false chosenRpc _ h1 h2]
    exact translatePost_single tts false status reason line _ hm
      (parse_bare_false hline hpay hle)
  · rw [translate_sends tts textstr source_lang target_lang true chosenRpc _ h1 h2]
    exact translatePost_single tts true status reason line _ hm
      (parse_bare_true hline hpay hle)

/-- Witness for C3 at the bare-URL fixture. -/
theorem C3_witness :
    translate demoTts (.str "http://x" ) "auto" "es" false "MkEWBc"
        ⟨200, "OK", [lineC3]⟩ = .ok (.str "http://example.com")
    ∧ translate demoTts (.str "http://x" ) "auto" "es" true "MkEWBc"
        ⟨200, "OK", [lineC3]⟩ = .ok (.arr [.str "http://example.com", .null, .null]) := by
  have hline : json_loads lineC3 =
      Except.ok (JVal.arr (JVal.arr (JVal.str "wrb.fr" :: JVal.str "MkEWBc" ::
        JVal.str (json_dumps payC3) ::
        [JVal.null, JVal.null, JVal.null, JVal.str "generic"]) :: [])) := rfl
  have hpay : json_loads (json_dumps payC3) =
      Except.ok (JVal.arr (JVal.arr [JVal.null] ::
        JVal.arr (JVal.arr [JVal.arr (JVal.str "http://example.com" :: [JVal.null])] :: []) :: [])) := rfl
  exact C3_bare_url demoTts (by decide) (by decide) (by rfl) hline hpay (by decide)

/-- Claim C4: for a mocked response whose translation array has length 2,
`translate` returns the ordered sequence of the two elements' position-0
values (and, with `pronounce=True`, the triple of that sequence with the
source and target pronunciations). -/
theorem C4_two_candidates
    (tts : GoogleTranslate) {textstr source_lang target_lang chosenRpc : String}
    {status : Nat} {reason : String}
    {line payloadStr : String} {a0 a1 : JVal} {arest orest : List JVal}
    {psrc : JVal} {b0rest b1tail prest : List JVal}
    {x1 y1 x2 : JVal} {r1 r2 : List JVal}
    (h1 : 0 < textstr.length) (h2 : textstr.length < 5000)
    (hm : strContains line rpcMarker = true)
    (hline : json_loads line =
      .ok (.arr (.arr (a0 :: a1 :: .str payloadStr :: arest) :: orest)))
    (hpay : json_loads payloadStr =
      .ok (.arr (.arr (psrc :: b0rest) ::
        .arr (.arr [.arr (x1 :: y1 :: r1), .arr (x2 :: r2)] :: b1tail) :: prest))) :
    translate tts (.str textstr) source_lang target_lang false chosenRpc
        ⟨status, reason, [line]⟩ = .ok (.arr [x1, x2])
    ∧ translate tts (.str textstr) source_lang target_lang true chosenRpc
        ⟨status, reason, [line]⟩ = .ok (.arr [.arr [x1, x2], psrc, y1]) := by
  constructor
  · rw [translate_sends tts textstr source_lang target_lang false chosenRpc _ h1 h2]
    exact translatePost_single tts false status reason line _ hm
      (parse_two_false hline hpay)
  · rw [translate_sends tts textstr source_lang target_lang true chosenRpc _ h1 h2]
    exact translatePost_single tts true status reason line _ hm
      (parse_two_true hline hpay)

/-- Witness for C4 at the two-candidate fixture. -/
theorem C4_witness :
    translate demoTts (.str "hello") "auto" "es" false "MkEWBc"
        ⟨200, "OK", [lineC4]⟩ = .ok (.arr [.str "one", .str "two"])
    ∧ translate demoTts (.str "hello") "auto" "es" true "MkEWBc"
        ⟨200, "OK", [lineC4]⟩ =
      .ok (.arr [.arr [.str "one", .str "two"], .str "PSRC", .str "PTGT"]) := by
  have hline : json_loads lineC4 =
      Except.ok (JVal.arr (JVal.arr (JVal.str "wrb.fr" :: JVal.str "MkEWBc" ::
        JVal.str (json_dumps payC4) ::
        [JVal.null, JVal.null, JVal.null, JVal.str "generic"]) :: [])) := rfl
  have hpay : json_loads (json_dumps payC4) =
      Except.ok (JVal.arr (JVal.arr (JVal.str "PSRC" :: []) ::
        JVal.arr (JVal.arr [JVal.arr (JVal.str "one" :: JVal.str "PTGT" :: []),
          JVal.arr (JVal.str "two" :: [])] :: []) :: [])) := rfl
  exact C4_two_candidates demoTts (by decide) (by decide) (by rfl) hline hpay

/-- Claim C5: with `pronounce=True`, the source pronunciation is read from
position 0 of the payload envelope's first branch and the target
pronunciation from the element's position 1, and the values pass through
unchanged into the triple — in particular, when the backend holds `null`
at either position, the result carries `null` there and no exception is
raised. -/
theorem C5_pron_absent
    (tts : GoogleTranslate) {textstr source_lang target_lang chosenRpc : String}
    {status : Nat} {reason : String}
    {line payloadStr : String} {a0 a1 : JVal} {arest orest : List JVal}
    {psrc : JVal} {b0rest b1tail prest : List JVal}
    {ps : List JVal} {ptgt : JVal} {frags : List (String × List JVal)}
    (h1 : 0 < textstr.length) (h2 : textstr.length < 5000)
    (hm : strContains line rpcMarker = true)
    (hline : json_loads line =
      .ok (.arr (.arr (a0 :: a1 :: .str payloadStr :: arest) :: orest)))
    (hpay : json_loads payloadStr =
      .ok (.arr (.arr (psrc :: b0rest) :: .arr (.arr [.arr ps] :: b1tail) :: prest)))
    (hlen : 5 < ps.length)
    (hfrag : ps.get? 5 = some (.arr (frags.map fragVal)))
    (hptgt : ps.get? 1 = some ptgt) :
    translate tts (.str textstr) source_lang target_lang true chosenRpc
        ⟨status, reason, [line]⟩ =
      .ok (.arr [.str (joinPieces (frags.map Prod.fst)), psrc, ptgt]) := by
  rw [translate_sends tts textstr source_lang target_lang true chosenRpc _ h1 h2]
  exact translatePost_single tts true status reason line _ hm
    (parse_single_sentence_pron hline hpay hlen hfrag hptgt)

/-- Witness for C5: both pronunciation positions hold `null` and the
result is `[text, None, None]` with no exception. -/
theorem C5_witness :
    translate demoTts (.str "hello") "auto" "es" true "MkEWBc"
        ⟨200, "OK", [lineC5]⟩ =
      .ok (.arr [.str (joinPieces (demoFrags.map Prod.fst)), .null, .null]) := by
  have hline : json_loads lineC5 =
      Except.ok (JVal.arr (JVal.arr (JVal.str "wrb.fr" :: JVal.str "MkEWBc" ::
        JVal.str (json_dumps payC5) ::
        [JVal.null, JVal.null, JVal.null, JVal.str "generic"]) :: [])) := rfl
  have hpay : json_loads (json_dumps payC5) =
      Except.ok (JVal.arr (JVal.arr (JVal.null :: []) ::
        JVal.arr (JVal.arr [JVal.arr psC1] :: []) :: [])) := rfl
  exact C5_pron_absent demoTts (by decide) (by decide) (by rfl) hline hpay
    (by decide) (by rfl) (by rfl)

/-- Claim C6 (amended): a `GoogleTranslateError` built from a client and a
response classifies by status: 403 yields the cause "Bad token or upstream
API changes", a status that is neither 403 nor 200 yields
"Upstream API error. Try again later." when ≥ 500 and "Unknown" otherwise;
but at status 200 the classifier reads the `lang_check` attribute, which
the client never defines, so it raises `AttributeError` instead of
producing the unsupported-language cause. -/
theorem C6_classified (tts : GoogleTranslate) (r : Resp) :
    (r.status = 403 → GoogleTranslateError_init none (some tts) (some r) =
      .ok (some (premiseOf r ++ ". Probable cause: Bad token or upstream API changes")))
    ∧ (r.status = 200 → GoogleTranslateError_init none (some tts) (some r) =
      .error (.attributeError "lang_check"))
    ∧ (r.status ≠ 403 → r.status ≠ 200 → 500 ≤ r.status →
      GoogleTranslateError_init none (some tts) (some r) =
      .ok (some (premiseOf r ++ ". Probable cause: Upstream API error. Try again later.")))
    ∧ (r.status ≠ 403 → r.status ≠ 200 → r.status < 500 →
      GoogleTranslateError_init none (some tts) (some r) =
      .ok (some (premiseOf r ++ ". Probable cause: Unknown"))) := by
  refine ⟨?_, ?_, ?_, ?_⟩
  · intro h
    simp [GoogleTranslateError_init, infer_msg, h]
  · intro h
    simp [GoogleTranslateError_init, infer_msg, h, GoogleTranslate.lang_check_attr]
  · intro h403 h200 h500
    simp [GoogleTranslateError_init, infer_msg, h403, h200, h500]
  · intro h403 h200 h500
    have hn : ¬ r.status ≥ 500 := by omega
    simp [GoogleTranslateError_init, infer_msg, h403, h200, hn]

/-- Witness for C6 (amended) at statuses 403, 503, 404 and 200. -/
theorem C6_witness :
    GoogleTranslateError_init none (some demoTts) (some ⟨403, "Forbidden", []⟩) =
      .ok (some (premiseOf ⟨403, "Forbidden", []⟩ ++
        ". Probable cause: Bad token or upstream API changes"))
    ∧ GoogleTranslateError_init none (some demoTts) (some ⟨503, "Service Unavailable", []⟩) =
      .ok (some (premiseOf ⟨503, "Service Unavailable", []⟩ ++
        ". Probable cause: Upstream API error. Try again later."))
    ∧ GoogleTranslateError_init none (some demoTts) (some ⟨404, "Not Found", []⟩) =
      .ok (some (premiseOf ⟨404, "Not Found", []⟩ ++ ". Probable cause: Unknown"))
    ∧ GoogleTranslateError_init none (some demoTts) (some ⟨200, "OK", []⟩) =
      .error (.attributeError "lang_check") := by
  refine ⟨(C6_classified demoTts _).1 rfl,
    (C6_classified demoTts _).2.2.1 (by decide) (by decide) (by decide),
    (C6_classified demoTts _).2.2.2 (by decide) (by decide) (by decide),
    (C6_classified demoTts _).2.1 rfl⟩

/-- Counterexample for C6 as stated: at status 200 (language-check flag
never set on the client) the construction raises `AttributeError` instead
of yielding the unsupported-language cause. -/
theorem C6_counterexample :
    GoogleTranslateError_init none (some demoTts) (some ⟨200, "No matching line", []⟩) =
      .error (.attributeError "lang_check") := rfl

/-- Claim C7: text of length ≥ 5000 makes `translate` return `None` and
`detect` return `None` immediately (guards answer before any request is
built or sent); empty text makes `translate` return `""` and `detect`
return `None`, likewise without a request.  The results do not depend on
the network response at all. -/
theorem C7_guards (tts : GoogleTranslate) (text source_lang target_lang : String)
    (pronounce : Bool) (chosenRpc : String) (net : Resp) :
    (text.length ≥ 5000 →
      translate tts (.str text) source_lang target_lang pronounce chosenRpc net = .ok .null
      ∧ detect tts (.str text) chosenRpc net = .ok none
      ∧ translateGuard (.str text) source_lang target_lang chosenRpc = .ok (.early .null)
      ∧ detectGuard (.str text) chosenRpc = .ok (.early .null))
    ∧ (text.length = 0 →
      translate tts (.str text) source_lang target_lang pronounce chosenRpc net = .ok (.str "")
      ∧ detect tts (.str text) chosenRpc net = .ok none
      ∧ translateGuard (.str text) source_lang target_lang chosenRpc = .ok (.early (.str ""))
      ∧ detectGuard (.str text) chosenRpc = .ok (.early .null)) := by
  constructor
  · intro h
    refine ⟨?_, ?_, ?_, ?_⟩ <;>
      simp [translate, detect, translateGuard, detectGuard, pyStr, pyLenV, h]
  · intro h
    have hn : ¬ text.length ≥ 5000 := by omega
    refine ⟨?_, ?_, ?_, ?_⟩ <;>
      simp [translate, detect, translateGuard, detectGuard, pyStr, pyLenV, h, hn]

/-- Witness for C7 at a 5000-character text and at the empty text. -/
theorem C7_witness :
    translate demoTts (.str bigText) "auto" "auto" false "MkEWBc"
        ⟨200, "OK", []⟩ = .ok .null
    ∧ detect demoTts (.str bigText) "MkEWBc" ⟨200, "OK", []⟩ = .ok none
    ∧ translate demoTts (.str "") "auto" "auto" false "MkEWBc"
        ⟨200, "OK", []⟩ = .ok (.str "")
    ∧ detect demoTts (.str "") "MkEWBc" ⟨200, "OK", []⟩ = .ok none := by
  have hbig : bigText.length ≥ 5000 := by
    have h : bigText.length = 5000 := by
      unfold bigText
      rw [String.length_mk, List.length_replicate]
    omega
  obtain ⟨ha, hb, -, -⟩ :=
    (C7_guards demoTts bigText "auto" "auto" false "MkEWBc" ⟨200, "OK", []⟩).1 hbig
  obtain ⟨hc, hd, -, -⟩ :=
    (C7_guards demoTts "" "auto" "auto" false "MkEWBc" ⟨200, "OK", []⟩).2 rfl
  exact ⟨ha, hb, hc, hd⟩

/-- Claim C8: `detect` reads the detected code from `response[0][2]` of
the decoded payload, lower-cases it, and returns the single-entry mapping
from the lower-cased code to its display name in the static language
table; a code absent from the table propagates a `KeyError`. -/
theorem C8_detect
    (tts : GoogleTranslate) {textstr chosenRpc : String}
    {status : Nat} {reason : String}
    {line payloadStr : String} {a0 a1 : JVal} {arest orest : List JVal}
    {c0 c1 : JVal} {crest prest : List JVal} (code : String)
    (h1 : 0 < textstr.length) (h2 : textstr.length < 5000)
    (hm : strContains line rpcMarker = true)
    (hline : json_loads line =
      .ok (.arr (.arr (a0 :: a1 :: .str payloadStr :: arest) :: orest)))
    (hpay : json_loads payloadStr =
      .ok (.arr (.arr (c0 :: c1 :: .str code :: crest) :: prest))) :
    (∀ name, LANGUAGES.lookup (pyLower code) = some name →
      detect tts (.str textstr) chosenRpc ⟨status, reason, [line]⟩ =
        .ok (some (pyLower code, name)))
    ∧ (LANGUAGES.lookup (pyLower code) = none →
      detect tts (.str textstr) chosenRpc ⟨status, reason, [line]⟩ =
        .error (.keyError (pyLower code))) := by
  have base := detectPost_single tts status reason line payloadStr code hm hline hpay
  constructor
  · intro name hname
    rw [detect_sends tts textstr chosenRpc _ h1 h2, base, hname]
  · intro hnone
    rw [detect_sends tts textstr chosenRpc _ h1 h2, base, hnone]

/-- Witness for C8: code `"EN"` yields the entry `("en", "english")`. -/
theorem C8_witness :
    detect demoTts (.str "hello") "MkEWBc" ⟨200, "OK", [lineC8]⟩ =
      .ok (some ("en", "english")) := by
  have hline : json_loads lineC8 =
      Except.ok (JVal.arr (JVal.arr (JVal.str "wrb.fr" :: JVal.str "MkEWBc" ::
        JVal.str (json_dumps payC8) ::
        [JVal.null, JVal.null, JVal.null, JVal.str "generic"]) :: [])) := rfl
  have hpay : json_loads (json_dumps payC8) =
      Except.ok (JVal.arr (JVal.arr (JVal.null :: JVal.null :: JVal.str "EN" :: []) ::
        [JVal.null])) := rfl
  exact (C8_detect demoTts "EN" (by decide) (by decide) (by rfl) hline hpay).1
    "english" rfl

/-- Claim C9: `"auto"` passes through `_process_lang` unchanged; a key of
the static language table passes through unchanged; any other value is
coerced to `"auto"` (the function is total — no exception is raised for an
invalid code). -/
theorem C9_lang_coercion (lang : String) :
    process_lang "auto" = "auto"
    ∧ ((LANGUAGES.lookup lang).isSome = true → process_lang lang = lang)
    ∧ (lang ≠ "auto" → (LANGUAGES.lookup lang).isSome = false →
        process_lang lang = "auto") := by
  refine ⟨rfl, ?_, ?_⟩
  · intro h
    by_cases ha : lang = "auto"
    · simp [process_lang, ha]
    · simp [process_lang, ha, h]
  · intro hne hns
    simp [process_lang, hne, hns]

/-- Witness for C9: a valid code, an invalid code, and `"auto"`. -/
theorem C9_witness :
    process_lang "en" = "en"
    ∧ process_lang "zz" = "auto"
    ∧ process_lang "auto" = "auto" :=
  ⟨(C9_lang_coercion "en").2.1 rfl,
   (C9_lang_coercion "zz").2.2 (by decide) rfl,
   (C9_lang_coercion "x").1⟩

/-- Claim C10: `translate` applies `str()` to its argument before the
guards, so a non-string input behaves exactly as its string form; `detect`
applies `len()` to the raw argument, so the same integer input raises
`TypeError` before any guard or request, regardless of the network
response. -/
theorem C10_str_coercion (tts : GoogleTranslate) (n : Int)
    (source_lang target_lang : String) (pronounce : Bool)
    (chosenRpc : String) (net : Resp) :
    translate tts (.int n) source_lang target_lang pronounce chosenRpc net =
      translate tts (.str (toString n)) source_lang target_lang pronounce chosenRpc net
    ∧ detect tts (.int n) chosenRpc net = .error .typeError :=
  ⟨rfl, rfl⟩

end GoogleTrans2
